import Mathlib

/-!
Verification development for the steam-proxy service
(src/server/steam-proxy.cjs).

The JavaScript source is shallowly embedded: every function of the source
becomes a Lean definition over explicit data; outbound HTTP calls become
oracle parameters (functions from the request data to the parsed response),
and each operation additionally returns the list of outbound calls it made,
so that properties of the form "no outbound call is made" are statable.
JavaScript truthiness on strings is modelled by comparison with the empty
string; absent JSON fields are modelled with Option; an unparseable JSON
body is the none case of the parsed-body Option; a rejected fetch promise
is the error case of an Except.
-/

namespace SteamProxy

/-- Server configuration read from the environment at startup.  A missing
environment variable is modelled as the empty string (both are falsy in the
source). -/
structure Config where
  steamApiKey : String
  turnstileSecretKey : String
  isProd : Bool
deriving DecidableEq, Repr

/-- APPID constant of the source. -/
def APPID : Nat := 1609230

/-- Startup check of the source: the process exits unless STEAM_API_KEY is
truthy.  Returns true when the process survives startup and begins to
listen. -/
def serverStarts (cfg : Config) : Bool := cfg.steamApiKey ≠ ""

/-- Code points String.prototype.trim removes: WhiteSpace and
LineTerminator of the JavaScript specification. -/
def jsWhitespaceCodes : List Nat :=
  [9, 10, 11, 12, 13, 32, 160, 5760, 8192, 8193, 8194, 8195, 8196, 8197, 8198,
    8199, 8200, 8201, 8202, 8232, 8233, 8239, 8287, 12288, 65279]

/-- Whether a character is trimmed by String.prototype.trim. -/
def isJsSpace (c : Char) : Bool := jsWhitespaceCodes.contains c.toNat

/-- String.prototype.trim on a character list. -/
def trimList (l : List Char) : List Char :=
  (((l.dropWhile isJsSpace).reverse).dropWhile isJsSpace).reverse

/-- String.prototype.trim. -/
def jsTrim (s : String) : String := String.mk (trimList s.toList)

/-- cleanProfileUrl of the source: String(u or default).trim(). -/
def cleanProfileUrl (u : String) : String := jsTrim u

/-- isSteamID64 of the source: test of the anchored regex of 17 digits. -/
def isSteamID64 (s : String) : Bool := s.length == 17 && s.toList.all Char.isDigit

/-- Case-insensitive character comparison, as the i flag of the source
regexes (ASCII folding; non-ASCII characters only match themselves). -/
def charIEq (a b : Char) : Bool := a.toLower == b.toLower

/-- Match a literal pattern case-insensitively at the head of a string,
returning the remainder on success. -/
def dropPatCI : List Char → List Char → Option (List Char)
  | [], s => some s
  | _ :: _, [] => none
  | a :: pa, b :: sb => if charIEq a b then dropPatCI pa sb else none

/-- The literal part of the profiles regex of the source. -/
def profilesPat : List Char := "steamcommunity.com/profiles/".toList

/-- The literal part of the id regex of the source. -/
def idPat : List Char := "steamcommunity.com/id/".toList

/-- Attempt the profiles regex at one position: the literal pattern followed
by exactly 17 digits; the digits are the captured group. -/
def tryProfilesAt (s : List Char) : Option (List Char) :=
  match dropPatCI profilesPat s with
  | none => none
  | some rest =>
    let ds := rest.take 17
    if ds.length == 17 && ds.all Char.isDigit then some ds else none

/-- Leftmost match of the profiles regex, as String.prototype.match. -/
def scanProfiles : List Char → Option (List Char)
  | [] => none
  | c :: rest =>
    match tryProfilesAt (c :: rest) with
    | some d => some d
    | none => scanProfiles rest

/-- Attempt the id regex at one position: the literal pattern followed by a
maximal nonempty run of characters other than slash, question mark and
hash; the run is the captured group. -/
def tryIdAt (s : List Char) : Option (List Char) :=
  match dropPatCI idPat s with
  | none => none
  | some rest =>
    let tok := rest.takeWhile (fun c => !(c == '/' || c == '?' || c == '#'))
    if tok.isEmpty then none else some tok

/-- Leftmost match of the id regex, as String.prototype.match. -/
def scanIdTok : List Char → Option (List Char)
  | [] => none
  | c :: rest =>
    match tryIdAt (c :: rest) with
    | some t => some t
    | none => scanIdTok rest

/-- Characters that encodeURIComponent leaves unescaped. -/
def isUriUnreserved (c : Char) : Bool :=
  c.isAlpha || c.isDigit || c == '-' || c == '_' || c == '.' || c == '!' ||
    c == '~' || c == '*' || c == Char.ofNat 39 || c == '(' || c == ')'

/-- Uppercase hexadecimal digit. -/
def hexUp (n : Nat) : Char := if n < 10 then Char.ofNat (48 + n) else Char.ofNat (55 + n)

/-- Percent-encode one byte. -/
def pctByte (b : Nat) : List Char := ['%', hexUp (b / 16), hexUp (b % 16)]

/-- UTF-8 bytes of a code point, as numbers. -/
def utf8Nat (n : Nat) : List Nat :=
  if n < 128 then [n]
  else if n < 2048 then [192 + n / 64, 128 + n % 64]
  else if n < 65536 then [224 + n / 4096, 128 + (n / 64) % 64, 128 + n % 64]
  else [240 + n / 262144, 128 + (n / 4096) % 64, 128 + (n / 64) % 64, 128 + n % 64]

/-- encodeURIComponent of JavaScript, as used by the source for URL
parameters. -/
def encodeURIComponent (s : String) : String :=
  String.mk ((s.toList.map (fun c =>
    if isUriUnreserved c then [c] else (utf8Nat c.toNat).map pctByte |>.flatten)).flatten)

/-- URL of the ResolveVanityURL call of the source. -/
def resolveVanityUrlStr (key vanity : String) : String :=
  "https://api.steampowered.com/ISteamUser/ResolveVanityURL/v0001/" ++
    "?key=" ++ encodeURIComponent key ++
    "&vanityurl=" ++ encodeURIComponent vanity

/-- URL of the GetPlayerAchievements call of the source. -/
def playerAchievementsUrlStr (key steamid : String) : String :=
  "https://api.steampowered.com/ISteamUserStats/GetPlayerAchievements/v1/" ++
    "?key=" ++ encodeURIComponent key ++
    "&steamid=" ++ encodeURIComponent steamid ++
    "&appid=" ++ encodeURIComponent (toString APPID)

/-- An HTTP response as seen by the source: the ok flag and the status. -/
structure RawResp where
  ok : Bool
  status : Nat
deriving DecidableEq, Repr

/-- Parsed inner response object of the ResolveVanityURL body. -/
structure VanityInner where
  steamid : Option String
  success : Option Int
deriving DecidableEq, Repr

/-- Parsed ResolveVanityURL body. -/
structure VanityBody where
  response : Option VanityInner
deriving DecidableEq, Repr

/-- One achievement record of the stats API: its api name and achieved
flag. -/
structure Ach where
  apiname : String
  achieved : Int
deriving DecidableEq, Repr

/-- Parsed playerstats object of the stats body. -/
structure PlayerStats where
  error : Option String
  achievements : Option (List Ach)
deriving DecidableEq, Repr

/-- Parsed GetPlayerAchievements body. -/
structure StatsBody where
  playerstats : Option PlayerStats
deriving DecidableEq, Repr

/-- Parsed Turnstile siteverify body. -/
structure TData where
  success : Bool
deriving DecidableEq, Repr

/-- The form-encoded data POSTed to the Turnstile siteverify endpoint:
secret, response token, and the remote ip when truthy. -/
structure TurnstileForm where
  secret : String
  response : String
  remoteip : Option String
deriving DecidableEq, Repr

/-- One client manifest entry: api name and the key the client wants
back. -/
structure ManifestEntry where
  apiname : String
  key : String
deriving DecidableEq, Repr

/-- The value returned by handleSync. -/
structure SyncResult where
  steamid64 : String
  unlocked : List String
  count : Nat
deriving DecidableEq, Repr

/-- An outbound HTTP call made by the service. -/
inductive OutCall where
  | turnstile (form : TurnstileForm)
  | vanity (url : String)
  | stats (url : String)
deriving DecidableEq, Repr

/-- Network oracle for the vanity call: maps the fetched URL to either a
rejected fetch (error case, carrying the exception message) or the HTTP
response with its parsed JSON body (none when the body is not parseable). -/
def VanityNet : Type := String → Except String (RawResp × Option VanityBody)

/-- Network oracle for the stats call, shaped like VanityNet. -/
def StatsNet : Type := String → Except String (RawResp × Option StatsBody)

/-- Network oracle for the Turnstile call: maps the POSTed form to a
rejected fetch or the parsed body (none when resp.json() rejected). -/
def TurnstileNet : Type := TurnstileForm → Except String (Option TData)

/-- Result object of verifyTurnstileOrSkip. -/
structure VerifyResult where
  success : Bool
  skipped : Bool
  error : Option String
  details : Option (Option TData)
deriving DecidableEq, Repr

/-- verifyTurnstileOrSkip of the source.  The first component is the list
of outbound calls made; the Except error case models a thrown exception. -/
def verifyTurnstileOrSkip (cfg : Config) (net : TurnstileNet) (token remoteip : String) :
    List OutCall × Except String VerifyResult :=
  if !cfg.isProd then ([], .ok ⟨true, true, none, none⟩)
  else if cfg.turnstileSecretKey = "" then
    ([], .error "Missing TURNSTILE_SECRET_KEY in production")
  else if token = "" then ([], .ok ⟨false, false, some "Missing turnstileToken", none⟩)
  else
    let form : TurnstileForm :=
      ⟨cfg.turnstileSecretKey, token, if remoteip ≠ "" then some remoteip else none⟩
    match net form with
    | .error e => ([.turnstile form], .error e)
    | .ok data =>
      match data with
      | some d =>
        if d.success then ([.turnstile form], .ok ⟨true, false, none, none⟩)
        else ([.turnstile form], .ok ⟨false, false, some "Turnstile failed", some (some d)⟩)
      | none => ([.turnstile form], .ok ⟨false, false, some "Turnstile failed", some none⟩)

/-- The part of resolveVanity after the fetch: status check, then the
success flag and steamid checks, building the error messages of the
source. -/
def resolveVanityCore (r : Except String (RawResp × Option VanityBody)) (vanity : String) :
    Except String String :=
  match r with
  | .error e => .error e
  | .ok (res, data) =>
    if !res.ok then .error ("ResolveVanityURL failed (HTTP " ++ toString res.status ++ ")")
    else
      let inner := data.bind (fun d => d.response)
      let steamid := inner.bind (fun r => r.steamid)
      let success := inner.bind (fun r => r.success)
      if success = some 1 ∧ steamid.getD "" ≠ "" then .ok (steamid.getD "")
      else .error ("Could not resolve that Steam profile. (vanity=" ++ vanity ++ ")")

/-- resolveVanity of the source: build the URL from the key and the vanity
string, fetch it, and run the response checks. -/
def resolveVanity (cfg : Config) (net : VanityNet) (vanity : String) : Except String String :=
  resolveVanityCore (net (resolveVanityUrlStr cfg.steamApiKey vanity)) vanity

/-- resolveSteamId64 of the source: trim, direct 17-digit match, profiles
regex, id regex, else vanity resolution of the whole trimmed input.  The
first component is the list of outbound calls made. -/
def resolveSteamId64 (cfg : Config) (net : VanityNet) (profile : String) :
    List OutCall × Except String String :=
  let p := cleanProfileUrl profile
  if isSteamID64 p then ([], .ok p)
  else
    match scanProfiles p.toList with
    | some d => ([], .ok (String.mk d))
    | none =>
      match scanIdTok p.toList with
      | some t =>
        ([.vanity (resolveVanityUrlStr cfg.steamApiKey (String.mk t))],
          resolveVanity cfg net (String.mk t))
      | none =>
        ([.vanity (resolveVanityUrlStr cfg.steamApiKey p)], resolveVanity cfg net p)

/-- The part of getPlayerAchievements after the fetch: status check,
playerstats presence check, truthy embedded error check, and the lenient
achievements extraction of the source. -/
def getPlayerAchievementsCore (r : Except String (RawResp × Option StatsBody)) :
    Except String (List Ach) :=
  match r with
  | .error e => .error e
  | .ok (res, data) =>
    if !res.ok then .error ("Steam API error (HTTP " ++ toString res.status ++ ")")
    else
      match data.bind (fun d => d.playerstats) with
      | none => .error "Unexpected Steam response (missing playerstats)."
      | some ps =>
        match ps.error with
        | some e => if e ≠ "" then .error e else .ok (ps.achievements.getD [])
        | none => .ok (ps.achievements.getD [])

/-- getPlayerAchievements of the source. -/
def getPlayerAchievements (cfg : Config) (net : StatsNet) (steamid64 : String) :
    Except String (List Ach) :=
  getPlayerAchievementsCore (net (playerAchievementsUrlStr cfg.steamApiKey steamid64))

/-- Map update as Map.prototype.set of the source. -/
def mapSet (m : String → Option String) (k v : String) : String → Option String :=
  fun x => if x = k then some v else m x

/-- The apiToKey building loop of handleSync, threading the map being
built: entries with a falsy apiname or key are skipped, later entries
overwrite earlier ones. -/
def buildFrom (m : String → Option String) : List ManifestEntry → (String → Option String)
  | [] => m
  | a :: rest =>
    buildFrom (if a.apiname ≠ "" ∧ a.key ≠ "" then mapSet m a.apiname a.key else m) rest

/-- The apiToKey map of handleSync, built from the empty map. -/
def buildApiToKey (client : List ManifestEntry) : String → Option String :=
  buildFrom (fun _ => none) client

/-- The unlocked-collection loop of handleSync: skip records whose achieved
flag is not 1, look the api name up, and push truthy keys in order. -/
def computeUnlocked (m : String → Option String) : List Ach → List String
  | [] => []
  | a :: rest =>
    if a.achieved = 1 then
      match m a.apiname with
      | some k => if k ≠ "" then k :: computeUnlocked m rest else computeUnlocked m rest
      | none => computeUnlocked m rest
    else computeUnlocked m rest

/-- The pure tail of handleSync, after the two outbound calls returned. -/
def handleSyncCore (steamid64 : String) (list : List Ach) (client : List ManifestEntry) :
    SyncResult :=
  let m := buildApiToKey client
  let unlocked := computeUnlocked m list
  ⟨steamid64, unlocked, unlocked.length⟩

/-- handleSync of the source: resolve the profile, fetch the achievements,
then the pure cross-referencing.  The first component is the list of
outbound calls made. -/
def handleSync (cfg : Config) (vnet : VanityNet) (snet : StatsNet)
    (profile : String) (client : List ManifestEntry) :
    List OutCall × Except String SyncResult :=
  match resolveSteamId64 cfg vnet profile with
  | (calls, .error e) => (calls, .error e)
  | (calls, .ok steamid64) =>
    let call2 := OutCall.stats (playerAchievementsUrlStr cfg.steamApiKey steamid64)
    match getPlayerAchievements cfg snet steamid64 with
    | .error e => (calls ++ [call2], .error e)
    | .ok list => (calls ++ [call2], .ok (handleSyncCore steamid64 list client))

/-- The JSON body of a POST /api/steam-sync request, plus the remote ip of
the connection.  Absent fields are none; a client field that is not an
array is also modelled as none (the source treats both the same way). -/
structure SyncRequest where
  profile : Option String
  client : Option (List ManifestEntry)
  turnstileToken : Option String
  ip : String
deriving DecidableEq, Repr

/-- The HTTP response of the endpoint: 200 with the sync result, 400 with
an error (and the verifier details when present), or 500 with a message. -/
inductive ApiResponse where
  | okJson (r : SyncResult)
  | badRequest (error : Option String) (details : Option (Option TData))
  | serverError (error : String)
deriving DecidableEq, Repr

/-- The numeric status of an ApiResponse. -/
def ApiResponse.statusCode : ApiResponse → Nat
  | .okJson _ => 200
  | .badRequest _ _ => 400
  | .serverError _ => 500

/-- The POST /api/steam-sync handler of the source: profile validation,
then the verifier, then handleSync, with thrown errors mapped to 500
responses by the catch block.  The first component is the list of outbound
calls made. -/
def postSteamSync (cfg : Config) (tnet : TurnstileNet) (vnet : VanityNet) (snet : StatsNet)
    (req : SyncRequest) : List OutCall × ApiResponse :=
  let profile := jsTrim (req.profile.getD "")
  if profile = "" then ([], .badRequest (some "Missing profile") none)
  else
    let client := req.client.getD []
    let token := jsTrim (req.turnstileToken.getD "")
    match verifyTurnstileOrSkip cfg tnet token req.ip with
    | (calls, .error e) => (calls, .serverError (if e = "" then "Server error" else e))
    | (calls, .ok ts) =>
      if !ts.success then (calls, .badRequest ts.error ts.details)
      else
        match handleSync cfg vnet snet profile client with
        | (calls2, .ok out) => (calls ++ calls2, .okJson out)
        | (calls2, .error e) =>
          (calls ++ calls2, .serverError (if e = "" then "Server error" else e))

/-- The GET /api/steam-sync handler of the source. -/
def getSteamSync : ApiResponse := .badRequest (some "Missing profile") none

/-- Closed form of the lookup the buildApiToKey loop produces: the value of
the last entry with the given api name among the entries whose apiname and
key are both truthy. -/
def lookupNE (client : List ManifestEntry) (name : String) : Option String :=
  match client with
  | [] => none
  | a :: rest =>
    match lookupNE rest name with
    | some k => some k
    | none =>
      if a.apiname ≠ "" ∧ a.key ≠ "" ∧ a.apiname = name then some a.key else none

/-- Modelled from the spec wording of the sync step: the api-name-to-key
lookup built from the client manifest with the last entry winning for a
duplicate api-name, with no further condition on the entries. -/
def lastWinsLookup (client : List ManifestEntry) (name : String) : Option String :=
  match client with
  | [] => none
  | a :: rest =>
    match lastWinsLookup rest name with
    | some k => some k
    | none => if a.apiname = name then some a.key else none

/-- Modelled from the spec wording of the sync step: iterate the fetched
achievements in order and, for each record with achieved flag 1 whose api
name is present in the last-wins lookup, append the mapped key. -/
def claimUnlocked (client : List ManifestEntry) (list : List Ach) : List String :=
  list.filterMap (fun a => if a.achieved = 1 then lastWinsLookup client a.apiname else none)

theorem buildFrom_eq (client : List ManifestEntry) :
    ∀ (m : String → Option String) (name : String),
    buildFrom m client name =
      match lookupNE client name with
      | some k => some k
      | none => m name := by
  induction client with
  | nil => intro m name; rfl
  | cons a rest ih =>
    intro m name
    show buildFrom (if a.apiname ≠ "" ∧ a.key ≠ "" then mapSet m a.apiname a.key else m)
        rest name = _
    rw [ih]
    by_cases hc : a.apiname ≠ "" ∧ a.key ≠ ""
    · cases hl : lookupNE rest name with
      | some k => simp [lookupNE, hl]
      | none =>
        simp only [lookupNE, hl, if_pos hc, mapSet]
        by_cases hn : a.apiname = name
        · have hne : name ≠ "" := by rw [← hn]; exact hc.1
          simp [hn, hc.2, hne]
        · have hn2 : ¬ name = a.apiname := fun h => hn h.symm
          simp [hn, hn2]
    · cases hl : lookupNE rest name with
      | some k => simp [lookupNE, hl]
      | none =>
        simp only [lookupNE, hl, if_neg hc]
        have : ¬ (a.apiname ≠ "" ∧ a.key ≠ "" ∧ a.apiname = name) := by
          intro h; exact hc ⟨h.1, h.2.1⟩
        simp [this]

theorem buildApiToKey_eq (client : List ManifestEntry) (name : String) :
    buildApiToKey client name = lookupNE client name := by
  show buildFrom (fun _ => none) client name = _
  rw [buildFrom_eq]
  cases lookupNE client name <;> rfl

theorem lookupNE_eq_lastWins (client : List ManifestEntry)
    (h : ∀ e ∈ client, e.apiname ≠ "" ∧ e.key ≠ "") (name : String) :
    lookupNE client name = lastWinsLookup client name := by
  induction client with
  | nil => rfl
  | cons a rest ih =>
    have ha := h a (List.mem_cons_self a rest)
    have hrest : ∀ e ∈ rest, e.apiname ≠ "" ∧ e.key ≠ "" :=
      fun e he => h e (List.mem_cons_of_mem a he)
    show (match lookupNE rest name with
      | some k => some k
      | none =>
        if a.apiname ≠ "" ∧ a.key ≠ "" ∧ a.apiname = name then some a.key else none) =
      (match lastWinsLookup rest name with
      | some k => some k
      | none => if a.apiname = name then some a.key else none)
    rw [ih hrest]
    cases lastWinsLookup rest name with
    | some k => rfl
    | none =>
      by_cases hn : a.apiname = name
      · have hne : name ≠ "" := by rw [← hn]; exact ha.1
        simp [hn, ha.2, hne]
      · simp [hn]

theorem lastWins_ne_empty (client : List ManifestEntry)
    (h : ∀ e ∈ client, e.apiname ≠ "" ∧ e.key ≠ "") (name k : String)
    (hl : lastWinsLookup client name = some k) : k ≠ "" := by
  induction client with
  | nil => exact absurd hl (by simp [lastWinsLookup])
  | cons a rest ih =>
    have ha := h a (List.mem_cons_self a rest)
    have hrest : ∀ e ∈ rest, e.apiname ≠ "" ∧ e.key ≠ "" :=
      fun e he => h e (List.mem_cons_of_mem a he)
    revert hl
    show (match lastWinsLookup rest name with
      | some k => some k
      | none => if a.apiname = name then some a.key else none) = some k → k ≠ ""
    cases hr : lastWinsLookup rest name with
    | some k2 =>
      intro hk; cases hk
      exact ih hrest hr
    | none =>
      by_cases hn : a.apiname = name
      · simp only [hn, if_pos rfl]
        intro hk; cases hk
        exact ha.2
      · simp [hn]

theorem computeUnlocked_eq_claim (client : List ManifestEntry)
    (h : ∀ e ∈ client, e.apiname ≠ "" ∧ e.key ≠ "") (list : List Ach) :
    computeUnlocked (buildApiToKey client) list = claimUnlocked client list := by
  induction list with
  | nil => rfl
  | cons a rest ih =>
    simp only [computeUnlocked, claimUnlocked, List.filterMap_cons] at *
    rw [buildApiToKey_eq, lookupNE_eq_lastWins client h]
    by_cases hach : a.achieved = 1
    · cases hk : lastWinsLookup client a.apiname with
      | some k =>
        have hne := lastWins_ne_empty client h a.apiname k hk
        simp [hach, hk, hne, ih]
      | none => simp [hach, hk, ih]
    · simp [hach, ih]

theorem lookupNE_filter (client : List ManifestEntry) (name : String) :
    lookupNE (client.filter (fun e => e.apiname != "" && e.key != "")) name =
      lookupNE client name := by
  induction client with
  | nil => rfl
  | cons a rest ih =>
    by_cases hc : a.apiname ≠ "" ∧ a.key ≠ ""
    · have hp : (a.apiname != "" && a.key != "") = true := by simp [hc.1, hc.2]
      simp only [List.filter_cons, hp, if_true]
      show (match lookupNE (rest.filter _) name with
        | some k => some k
        | none =>
          if a.apiname ≠ "" ∧ a.key ≠ "" ∧ a.apiname = name then some a.key else none) = _
      rw [ih]
      rfl
    · have hp : (a.apiname != "" && a.key != "") = false := by
        rw [Bool.and_eq_false_iff]
        by_cases h1 : a.apiname = ""
        · exact Or.inl (by simp [h1])
        · by_cases h2 : a.key = ""
          · exact Or.inr (by simp [h2])
          · exact absurd ⟨h1, h2⟩ hc
      simp only [List.filter_cons, hp]
      rw [if_neg Bool.false_ne_true, ih]
      show lookupNE rest name = (match lookupNE rest name with
        | some k => some k
        | none =>
          if a.apiname ≠ "" ∧ a.key ≠ "" ∧ a.apiname = name then some a.key else none)
      have hcond : ¬ (a.apiname ≠ "" ∧ a.key ≠ "" ∧ a.apiname = name) := by
        intro hb; exact hc ⟨hb.1, hb.2.1⟩
      cases lookupNE rest name with
      | some k => rfl
      | none => simp [hcond]

/-- Development configuration used by concrete runs. -/
def cfgDev : Config := ⟨"TESTKEY", "", false⟩

/-- Production configuration used by concrete runs. -/
def cfgProd : Config := ⟨"TESTKEY", "SECRET", true⟩

/-- Vanity oracle answering success with a fixed id. -/
def vnetFixed : VanityNet :=
  fun _ => .ok (⟨true, 200⟩, some ⟨some ⟨some "76561198000000009", some 1⟩⟩)

/-- Vanity oracle answering an HTTP failure. -/
def vnetHttp500 : VanityNet := fun _ => .ok (⟨false, 500⟩, none)

/-- Stats oracle answering a fixed achievement list. -/
def snetOf (l : List Ach) : StatsNet := fun _ => .ok (⟨true, 200⟩, some ⟨some ⟨none, some l⟩⟩)

/-- Stats oracle answering an unparseable body with an ok status. -/
def snetBadBody : StatsNet := fun _ => .ok (⟨true, 200⟩, none)

/-- Turnstile oracle answering a parsed success. -/
def tnetOk : TurnstileNet := fun _ => .ok (some ⟨true⟩)

/-- Turnstile oracle whose fetch rejects. -/
def tnetThrow : TurnstileNet := fun _ => .error "fetch failed"

/-- Claim C1 (counterexample): the claim's construction is not what the
code computes for every manifest.  For the manifest with the single entry
(apiname A, key empty) and the single achieved achievement A, the lookup
described by the claim maps A to the empty key and the described result is
the one-element list of the empty key with count 1, but handleSync skips
the entry (falsy key) and returns the empty list with count 0. -/
theorem sync_unlocked_empty_key_cex :
    claimUnlocked [⟨"A", ""⟩] [⟨"A", 1⟩] = [""] ∧
    handleSync cfgDev vnetFixed (snetOf [⟨"A", 1⟩]) "76561198000000001" [⟨"A", ""⟩] =
      ([OutCall.stats (playerAchievementsUrlStr "TESTKEY" "76561198000000001")],
        .ok ⟨"76561198000000001", [], 0⟩) := ⟨rfl, rfl⟩

/-- Claim C1 (amended): for every client manifest all of whose entries have
a non-empty apiname and a non-empty key, and every fetched achievements
list, handleSync returns (steamid64, unlocked, count) where unlocked is
built from the last-entry-wins api-name-to-key lookup by appending, in the
order the stats API returned them, the mapped key of each record with
achieved flag 1 whose api-name is in the lookup, and count is the length of
unlocked; the claim's concrete example evaluates as stated. -/
theorem sync_unlocked_spec :
    (∀ (cfg : Config) (vnet : VanityNet) (snet : StatsNet) (profile : String)
      (client : List ManifestEntry) (calls : List OutCall) (sid : String) (list : List Ach),
      resolveSteamId64 cfg vnet profile = (calls, .ok sid) →
      getPlayerAchievements cfg snet sid = .ok list →
      (∀ e ∈ client, e.apiname ≠ "" ∧ e.key ≠ "") →
      handleSync cfg vnet snet profile client =
        (calls ++ [OutCall.stats (playerAchievementsUrlStr cfg.steamApiKey sid)],
          .ok ⟨sid, claimUnlocked client list, (claimUnlocked client list).length⟩)) ∧
    handleSyncCore "76561198000000001" [⟨"A", 1⟩, ⟨"B", 0⟩, ⟨"C", 1⟩]
      [⟨"A", "k1"⟩, ⟨"C", "k3"⟩] = ⟨"76561198000000001", ["k1", "k3"], 2⟩ := by
  constructor
  · intro cfg vnet snet profile client calls sid list hres hach hcl
    unfold handleSync
    rw [hres]
    dsimp only
    rw [hach]
    dsimp only
    unfold handleSyncCore
    dsimp only
    rw [computeUnlocked_eq_claim client hcl list]
  · rfl

/-- Claim C1 (witness): the amended theorem applied to the claim's concrete
example, run through the full pipeline at a direct 17-digit profile. -/
theorem sync_unlocked_spec_witness :
    handleSync cfgDev vnetFixed (snetOf [⟨"A", 1⟩, ⟨"B", 0⟩, ⟨"C", 1⟩]) "76561198000000001"
      [⟨"A", "k1"⟩, ⟨"C", "k3"⟩] =
      ([OutCall.stats (playerAchievementsUrlStr "TESTKEY" "76561198000000001")],
        .ok ⟨"76561198000000001", ["k1", "k3"], 2⟩) := by
  have h := sync_unlocked_spec.1 cfgDev vnetFixed (snetOf [⟨"A", 1⟩, ⟨"B", 0⟩, ⟨"C", 1⟩])
    "76561198000000001" [⟨"A", "k1"⟩, ⟨"C", "k3"⟩] [] "76561198000000001"
    [⟨"A", 1⟩, ⟨"B", 0⟩, ⟨"C", 1⟩] rfl rfl (by decide)
  exact h

/-- Claim C9 (confirmed): unlocked is a list with multiplicity.  Two
achieved records with the same api name produce the mapped key twice, and
two manifest entries with distinct api names and the same key also produce
that key twice; each occurrence is counted. -/
theorem unlocked_multiplicity :
    handleSyncCore "s" [⟨"A", 1⟩, ⟨"A", 1⟩] [⟨"A", "k"⟩] = ⟨"s", ["k", "k"], 2⟩ ∧
    handleSyncCore "s" [⟨"A", 1⟩, ⟨"B", 1⟩] [⟨"A", "k"⟩, ⟨"B", "k"⟩] =
      ⟨"s", ["k", "k"], 2⟩ := ⟨rfl, rfl⟩

/-- Claim C10 (confirmed): the lookup built by handleSync is unchanged when
the manifest entries with an empty apiname or key are dropped first; an
achieved achievement whose only entry has an empty key is excluded, and a
later duplicate with an empty key does not override an earlier entry with a
non-empty key. -/
theorem manifest_empty_entries_ignored :
    (∀ (client : List ManifestEntry) (name : String),
      buildApiToKey client name =
        buildApiToKey (client.filter (fun e => e.apiname != "" && e.key != "")) name) ∧
    handleSyncCore "s" [⟨"A", 1⟩] [⟨"A", ""⟩] = ⟨"s", [], 0⟩ ∧
    handleSyncCore "s" [⟨"A", 1⟩] [⟨"A", "k1"⟩, ⟨"A", ""⟩] = ⟨"s", ["k1"], 1⟩ := by
  refine ⟨?_, rfl, rfl⟩
  intro client name
  rw [buildApiToKey_eq, buildApiToKey_eq, lookupNE_filter]

/-- Claim C3 (confirmed): resolveSteamId64 applies its steps in order with
the first match winning: a trimmed input of exactly 17 digits is returned
unchanged with no outbound call; otherwise a profiles-URL match returns the
embedded 17 digits with no outbound call; otherwise an id-URL match
performs vanity resolution on exactly the captured token; otherwise vanity
resolution runs on the entire trimmed input. -/
theorem resolve_order_spec :
    ∀ (cfg : Config) (net : VanityNet) (s : String),
      (isSteamID64 (cleanProfileUrl s) = true →
        resolveSteamId64 cfg net s = ([], .ok (cleanProfileUrl s))) ∧
      (∀ d, isSteamID64 (cleanProfileUrl s) = false →
        scanProfiles (cleanProfileUrl s).toList = some d →
        resolveSteamId64 cfg net s = ([], .ok (String.mk d))) ∧
      (∀ t, isSteamID64 (cleanProfileUrl s) = false →
        scanProfiles (cleanProfileUrl s).toList = none →
        scanIdTok (cleanProfileUrl s).toList = some t →
        resolveSteamId64 cfg net s =
          ([.vanity (resolveVanityUrlStr cfg.steamApiKey (String.mk t))],
            resolveVanity cfg net (String.mk t))) ∧
      (isSteamID64 (cleanProfileUrl s) = false →
        scanProfiles (cleanProfileUrl s).toList = none →
        scanIdTok (cleanProfileUrl s).toList = none →
        resolveSteamId64 cfg net s =
          ([.vanity (resolveVanityUrlStr cfg.steamApiKey (cleanProfileUrl s))],
            resolveVanity cfg net (cleanProfileUrl s))) := by
  intro cfg net s
  refine ⟨?_, ?_, ?_, ?_⟩
  · intro h1
    simp [resolveSteamId64, h1]
  · intro d h1 h2
    simp only [String.toList] at h2
    simp [resolveSteamId64, h1, h2]
  · intro t h1 h2 h3
    simp only [String.toList] at h2 h3
    simp [resolveSteamId64, h1, h2, h3]
  · intro h1 h2 h3
    simp only [String.toList] at h2 h3
    simp [resolveSteamId64, h1, h2, h3]

/-- Claim C3 (witness): the theorem applied at the four concrete inputs, one
per step. -/
theorem resolve_order_spec_witness :
    resolveSteamId64 cfgDev vnetFixed " 76561198000000001 " = ([], .ok "76561198000000001") ∧
    resolveSteamId64 cfgDev vnetFixed "https://steamcommunity.com/profiles/76561198012345678" =
      ([], .ok "76561198012345678") ∧
    resolveSteamId64 cfgDev vnetFixed "https://STEAMCOMMUNITY.com/id/alice?x=1" =
      ([.vanity (resolveVanityUrlStr "TESTKEY" "alice")], resolveVanity cfgDev vnetFixed "alice") ∧
    resolveSteamId64 cfgDev vnetFixed " bob " =
      ([.vanity (resolveVanityUrlStr "TESTKEY" "bob")], resolveVanity cfgDev vnetFixed "bob") := by
  refine ⟨?_, ?_, ?_, ?_⟩
  · exact (resolve_order_spec cfgDev vnetFixed " 76561198000000001 ").1 rfl
  · exact (resolve_order_spec cfgDev vnetFixed
      "https://steamcommunity.com/profiles/76561198012345678").2.1
      "76561198012345678".toList rfl rfl
  · exact (resolve_order_spec cfgDev vnetFixed "https://STEAMCOMMUNITY.com/id/alice?x=1").2.2.1
      "alice".toList rfl rfl rfl
  · exact (resolve_order_spec cfgDev vnetFixed " bob ").2.2.2 rfl rfl rfl

/-- Claim C4 (counterexample): a delivered response whose playerstats
object carries an embedded error field holding the empty string is not a
failure: the code tests the field for truthiness, so the call succeeds and
returns the achievements, refuting the claimed only-if direction. -/
theorem fetch_achievements_empty_error_cex :
    (some "" : Option String) ≠ none ∧
    getPlayerAchievements cfgDev
      (fun _ => .ok (⟨true, 200⟩, some ⟨some ⟨some "", some [⟨"A", 1⟩]⟩⟩))
      "76561198000000001" = .ok [⟨"A", 1⟩] := ⟨by decide, rfl⟩

/-- Claim C4 (amended): over delivered responses, getPlayerAchievements
fails if and only if the HTTP status is not success, the body is not
parseable, the playerstats object is absent, or playerstats carries a
NON-EMPTY embedded error field (whose message is propagated verbatim); in
every other case it returns the achievements list, with an absent or
non-list achievements field treated as the empty list.  A rejected fetch
propagates as a failure with the rejection message. -/
theorem fetch_achievements_spec :
    (∀ (cfg : Config) (net : StatsNet) (sid : String),
      getPlayerAchievements cfg net sid =
        getPlayerAchievementsCore (net (playerAchievementsUrlStr cfg.steamApiKey sid))) ∧
    (∀ e, getPlayerAchievementsCore (.error e) = .error e) ∧
    (∀ (res : RawResp) (data : Option StatsBody),
      (res.ok = false →
        getPlayerAchievementsCore (.ok (res, data)) =
          .error ("Steam API error (HTTP " ++ toString res.status ++ ")")) ∧
      (res.ok = true → data.bind (fun d => d.playerstats) = none →
        getPlayerAchievementsCore (.ok (res, data)) =
          .error "Unexpected Steam response (missing playerstats).") ∧
      (∀ ps e, res.ok = true → data.bind (fun d => d.playerstats) = some ps →
        ps.error = some e → e ≠ "" →
        getPlayerAchievementsCore (.ok (res, data)) = .error e) ∧
      (∀ ps, res.ok = true → data.bind (fun d => d.playerstats) = some ps →
        (ps.error = none ∨ ps.error = some "") →
        getPlayerAchievementsCore (.ok (res, data)) = .ok (ps.achievements.getD []))) := by
  refine ⟨fun _ _ _ => rfl, fun _ => rfl, fun res data => ⟨?_, ?_, ?_, ?_⟩⟩
  · intro h
    simp [getPlayerAchievementsCore, h]
  · intro h1 h2
    simp [getPlayerAchievementsCore, h1, h2]
  · intro ps e h1 h2 h3 h4
    simp [getPlayerAchievementsCore, h1, h2, h3, h4]
  · intro ps h1 h2 h3
    cases h3 with
    | inl h3 => simp [getPlayerAchievementsCore, h1, h2, h3]
    | inr h3 => simp [getPlayerAchievementsCore, h1, h2, h3]

/-- Claim C4 (witness): the amended theorem applied at concrete responses,
one per branch. -/
theorem fetch_achievements_spec_witness :
    getPlayerAchievementsCore (.ok (⟨false, 503⟩, none)) =
      .error "Steam API error (HTTP 503)" ∧
    getPlayerAchievementsCore (.ok (⟨true, 200⟩, none)) =
      .error "Unexpected Steam response (missing playerstats)." ∧
    getPlayerAchievementsCore (.ok (⟨true, 200⟩, some ⟨some ⟨some "Profile is private", none⟩⟩)) =
      .error "Profile is private" ∧
    getPlayerAchievementsCore (.ok (⟨true, 200⟩, some ⟨some ⟨none, none⟩⟩)) = .ok [] := by
  refine ⟨?_, ?_, ?_, ?_⟩
  · exact (fetch_achievements_spec.2.2 ⟨false, 503⟩ none).1 rfl
  · exact (fetch_achievements_spec.2.2 ⟨true, 200⟩ none).2.1 rfl rfl
  · exact (fetch_achievements_spec.2.2 ⟨true, 200⟩
      (some ⟨some ⟨some "Profile is private", none⟩⟩)).2.2.1
      ⟨some "Profile is private", none⟩ "Profile is private" rfl rfl rfl (by decide)
  · exact (fetch_achievements_spec.2.2 ⟨true, 200⟩ (some ⟨some ⟨none, none⟩⟩)).2.2.2
      ⟨none, none⟩ rfl rfl (Or.inl rfl)

/-- Claim C7 (confirmed): a POST request whose profile field is absent or
empty after trimming is answered 400 with an error body immediately: for
every configuration and every behaviour of the three network oracles the
result is the same Missing-profile 400 response with an empty call trace,
so neither the verifier nor the resolver nor the fetcher can have been
consulted. -/
theorem empty_profile_400 :
    ∀ (cfg : Config) (tnet : TurnstileNet) (vnet : VanityNet) (snet : StatsNet)
      (req : SyncRequest),
      jsTrim (req.profile.getD "") = "" →
      postSteamSync cfg tnet vnet snet req =
        ([], .badRequest (some "Missing profile") none) ∧
      (postSteamSync cfg tnet vnet snet req).2.statusCode = 400 := by
  intro cfg tnet vnet snet req h
  have hmain : postSteamSync cfg tnet vnet snet req =
      ([], .badRequest (some "Missing profile") none) := by
    unfold postSteamSync
    rw [if_pos h]
  exact ⟨hmain, by rw [hmain]; rfl⟩

/-- Claim C7 (witness): the theorem applied to a request with an absent
profile and one with a whitespace profile, under oracles that would answer
every call. -/
theorem empty_profile_400_witness :
    postSteamSync cfgProd tnetOk vnetFixed (snetOf [⟨"A", 1⟩]) ⟨none, none, some "tok", "ip"⟩ =
      ([], .badRequest (some "Missing profile") none) ∧
    postSteamSync cfgDev tnetThrow vnetHttp500 snetBadBody ⟨some "   ", some [], none, ""⟩ =
      ([], .badRequest (some "Missing profile") none) := by
  constructor
  · exact (empty_profile_400 cfgProd tnetOk vnetFixed (snetOf [⟨"A", 1⟩])
      ⟨none, none, some "tok", "ip"⟩ rfl).1
  · exact (empty_profile_400 cfgDev tnetThrow vnetHttp500 snetBadBody
      ⟨some "   ", some [], none, ""⟩ rfl).1

/-- Claim C6 (counterexample): in production mode with an empty token but
the verification secret absent, the verifier does not return a
missing-token failure: it throws the missing-secret configuration error
(still with no outbound call), so the claimed behaviour of the
production-and-empty-token case does not hold for every configuration. -/
theorem verifier_missing_secret_cex :
    verifyTurnstileOrSkip ⟨"KEY", "", true⟩ tnetOk "" "1.2.3.4" =
      ([], .error "Missing TURNSTILE_SECRET_KEY in production") ∧
    (verifyTurnstileOrSkip ⟨"KEY", "", true⟩ tnetOk "" "1.2.3.4").2 ≠
      .ok ⟨false, false, some "Missing turnstileToken", none⟩ :=
  ⟨rfl, fun h => Except.noConfusion h⟩

/-- Claim C6 (amended): the verifier short-circuits without any outbound
call in exactly three cases: in non-production mode it returns success for
every token; in production mode with the secret absent it throws the
missing-secret error; in production mode with the secret present and an
empty token it returns a missing-token failure.  In every remaining case it
makes exactly one outbound call, to the siteverify endpoint with the
secret, the token, and the remote ip when truthy. -/
theorem verifier_shortcircuit_spec :
    ∀ (cfg : Config) (net : TurnstileNet) (token ip : String),
      (cfg.isProd = false →
        verifyTurnstileOrSkip cfg net token ip = ([], .ok ⟨true, true, none, none⟩)) ∧
      (cfg.isProd = true → cfg.turnstileSecretKey = "" →
        verifyTurnstileOrSkip cfg net token ip =
          ([], .error "Missing TURNSTILE_SECRET_KEY in production")) ∧
      (cfg.isProd = true → cfg.turnstileSecretKey ≠ "" → token = "" →
        verifyTurnstileOrSkip cfg net token ip =
          ([], .ok ⟨false, false, some "Missing turnstileToken", none⟩)) ∧
      (cfg.isProd = true → cfg.turnstileSecretKey ≠ "" → token ≠ "" →
        (verifyTurnstileOrSkip cfg net token ip).1 =
          [.turnstile ⟨cfg.turnstileSecretKey, token, if ip ≠ "" then some ip else none⟩]) := by
  intro cfg net token ip
  refine ⟨?_, ?_, ?_, ?_⟩
  · intro h
    simp [verifyTurnstileOrSkip, h]
  · intro h1 h2
    simp [verifyTurnstileOrSkip, h1, h2]
  · intro h1 h2 h3
    simp [verifyTurnstileOrSkip, h1, h2, h3]
  · intro h1 h2 h3
    simp only [verifyTurnstileOrSkip, h1, h2, h3]
    cases net ⟨cfg.turnstileSecretKey, token, if ip ≠ "" then some ip else none⟩ with
    | error e => simp [h2, h3]
    | ok data =>
      cases data with
      | none => simp [h2, h3]
      | some d => cases hd : d.success <;> simp [h2, h3, hd]

/-- Claim C6 (witness): the amended theorem applied at concrete
configurations, one per case. -/
theorem verifier_shortcircuit_spec_witness :
    verifyTurnstileOrSkip cfgDev tnetThrow "" "ip" = ([], .ok ⟨true, true, none, none⟩) ∧
    verifyTurnstileOrSkip ⟨"KEY", "", true⟩ tnetThrow "tok" "ip" =
      ([], .error "Missing TURNSTILE_SECRET_KEY in production") ∧
    verifyTurnstileOrSkip cfgProd tnetThrow "" "ip" =
      ([], .ok ⟨false, false, some "Missing turnstileToken", none⟩) ∧
    (verifyTurnstileOrSkip cfgProd tnetOk "tok" "1.2.3.4").1 =
      [.turnstile ⟨"SECRET", "tok", some "1.2.3.4"⟩] := by
  refine ⟨?_, ?_, ?_, ?_⟩
  · exact (verifier_shortcircuit_spec cfgDev tnetThrow "" "ip").1 rfl
  · exact (verifier_shortcircuit_spec ⟨"KEY", "", true⟩ tnetThrow "tok" "ip").2.1 rfl rfl
  · exact (verifier_shortcircuit_spec cfgProd tnetThrow "" "ip").2.2.1 rfl (by decide) rfl
  · exact (verifier_shortcircuit_spec cfgProd tnetOk "tok" "1.2.3.4").2.2.2 rfl (by decide)
      (by decide)

/-- The form the endpoint's verification call POSTs for a request. -/
def turnstileFormOf (cfg : Config) (req : SyncRequest) : TurnstileForm :=
  ⟨cfg.turnstileSecretKey, jsTrim (req.turnstileToken.getD ""),
    if req.ip ≠ "" then some req.ip else none⟩

/-- Claim C5 (counterexample): in production mode with a non-empty token,
when the outbound verification call itself errors (the fetch rejects), the
verifier does not return a failure result: it throws, and the endpoint
answers 500 with the rejection message, not 400. -/
theorem verifier_fetch_throw_cex :
    verifyTurnstileOrSkip cfgProd tnetThrow "tok" "1.2.3.4" =
      ([OutCall.turnstile ⟨"SECRET", "tok", some "1.2.3.4"⟩], .error "fetch failed") ∧
    postSteamSync cfgProd tnetThrow vnetFixed (snetOf [])
      ⟨some "76561198000000001", none, some "tok", "1.2.3.4"⟩ =
      ([OutCall.turnstile ⟨"SECRET", "tok", some "1.2.3.4"⟩], .serverError "fetch failed") ∧
    (ApiResponse.serverError "fetch failed").statusCode = 500 := ⟨rfl, rfl, rfl⟩

/-- Claim C5 (amended): in production mode with the secret present and a
non-empty token, an unparseable verification response body or a false
success flag makes the verifier return a failure result with diagnostic
details (it does not throw), and the endpoint rejects with 400 carrying the
verifier's reason; an errored outbound verification call instead propagates
as a thrown exception, which the endpoint maps to a 500 response with the
rejection message. -/
theorem verifier_failure_spec :
    ∀ (cfg : Config) (tnet : TurnstileNet) (vnet : VanityNet) (snet : StatsNet)
      (req : SyncRequest),
      cfg.isProd = true → cfg.turnstileSecretKey ≠ "" →
      jsTrim (req.profile.getD "") ≠ "" →
      jsTrim (req.turnstileToken.getD "") ≠ "" →
      (tnet (turnstileFormOf cfg req) = .ok none →
        verifyTurnstileOrSkip cfg tnet (jsTrim (req.turnstileToken.getD "")) req.ip =
          ([.turnstile (turnstileFormOf cfg req)],
            .ok ⟨false, false, some "Turnstile failed", some none⟩) ∧
        postSteamSync cfg tnet vnet snet req =
          ([.turnstile (turnstileFormOf cfg req)],
            .badRequest (some "Turnstile failed") (some none))) ∧
      (∀ d, tnet (turnstileFormOf cfg req) = .ok (some d) → d.success = false →
        verifyTurnstileOrSkip cfg tnet (jsTrim (req.turnstileToken.getD "")) req.ip =
          ([.turnstile (turnstileFormOf cfg req)],
            .ok ⟨false, false, some "Turnstile failed", some (some d)⟩) ∧
        postSteamSync cfg tnet vnet snet req =
          ([.turnstile (turnstileFormOf cfg req)],
            .badRequest (some "Turnstile failed") (some (some d)))) ∧
      (∀ e, tnet (turnstileFormOf cfg req) = .error e → e ≠ "" →
        verifyTurnstileOrSkip cfg tnet (jsTrim (req.turnstileToken.getD "")) req.ip =
          ([.turnstile (turnstileFormOf cfg req)], .error e) ∧
        postSteamSync cfg tnet vnet snet req =
          ([.turnstile (turnstileFormOf cfg req)], .serverError e)) := by
  intro cfg tnet vnet snet req h1 h2 h3 h4
  refine ⟨?_, ?_, ?_⟩
  · intro hr
    simp only [turnstileFormOf, ite_not] at hr
    have hv : verifyTurnstileOrSkip cfg tnet (jsTrim (req.turnstileToken.getD "")) req.ip =
        ([.turnstile (turnstileFormOf cfg req)],
          .ok ⟨false, false, some "Turnstile failed", some none⟩) := by
      simp [verifyTurnstileOrSkip, h1, h2, h4, hr, turnstileFormOf]
    refine ⟨hv, ?_⟩
    unfold postSteamSync
    rw [if_neg h3]
    dsimp only
    rw [hv]
    rfl
  · intro d hr hd
    simp only [turnstileFormOf, ite_not] at hr
    have hv : verifyTurnstileOrSkip cfg tnet (jsTrim (req.turnstileToken.getD "")) req.ip =
        ([.turnstile (turnstileFormOf cfg req)],
          .ok ⟨false, false, some "Turnstile failed", some (some d)⟩) := by
      simp [verifyTurnstileOrSkip, h1, h2, h4, hr, hd, turnstileFormOf]
    refine ⟨hv, ?_⟩
    unfold postSteamSync
    rw [if_neg h3]
    dsimp only
    rw [hv]
    rfl
  · intro e hr he
    simp only [turnstileFormOf, ite_not] at hr
    have hv : verifyTurnstileOrSkip cfg tnet (jsTrim (req.turnstileToken.getD "")) req.ip =
        ([.turnstile (turnstileFormOf cfg req)], .error e) := by
      simp [verifyTurnstileOrSkip, h1, h2, h4, hr, turnstileFormOf]
    refine ⟨hv, ?_⟩
    unfold postSteamSync
    rw [if_neg h3]
    dsimp only
    rw [hv]
    simp [he]

/-- Claim C5 (witness): the amended theorem applied at a concrete
production request for each of the three outcomes. -/
theorem verifier_failure_spec_witness :
    postSteamSync cfgProd (fun _ => .ok none) vnetFixed (snetOf [])
      ⟨some "76561198000000001", none, some "tok", "1.2.3.4"⟩ =
      ([.turnstile ⟨"SECRET", "tok", some "1.2.3.4"⟩],
        .badRequest (some "Turnstile failed") (some none)) ∧
    postSteamSync cfgProd (fun _ => .ok (some ⟨false⟩)) vnetFixed (snetOf [])
      ⟨some "76561198000000001", none, some "tok", "1.2.3.4"⟩ =
      ([.turnstile ⟨"SECRET", "tok", some "1.2.3.4"⟩],
        .badRequest (some "Turnstile failed") (some (some ⟨false⟩))) ∧
    postSteamSync cfgProd tnetThrow vnetFixed (snetOf [])
      ⟨some "76561198000000001", none, some "tok", "1.2.3.4"⟩ =
      ([.turnstile ⟨"SECRET", "tok", some "1.2.3.4"⟩], .serverError "fetch failed") := by
  refine ⟨?_, ?_, ?_⟩
  · exact ((verifier_failure_spec cfgProd (fun _ => .ok none) vnetFixed (snetOf [])
      ⟨some "76561198000000001", none, some "tok", "1.2.3.4"⟩ rfl (by decide) (by decide)
      (by decide)).1 rfl).2
  · exact ((verifier_failure_spec cfgProd (fun _ => .ok (some ⟨false⟩)) vnetFixed (snetOf [])
      ⟨some "76561198000000001", none, some "tok", "1.2.3.4"⟩ rfl (by decide) (by decide)
      (by decide)).2.1 ⟨false⟩ rfl rfl).2
  · exact ((verifier_failure_spec cfgProd tnetThrow vnetFixed (snetOf [])
      ⟨some "76561198000000001", none, some "tok", "1.2.3.4"⟩ rfl (by decide) (by decide)
      (by decide)).2.2 "fetch failed" rfl (by decide)).2

/-- Claim C2 (counterexample): in production mode with the verification
secret absent but the Steam credential present, the process starts
(the startup check inspects only the Steam credential) and still serves
requests: an empty-profile request is answered 400 as usual, and a request
reaching verification is answered per-request with a 500 configuration
error — the missing-secret check is not a startup check and the process can
serve requests. -/
theorem missing_secret_startup_cex :
    serverStarts ⟨"KEY", "", true⟩ = true ∧
    postSteamSync ⟨"KEY", "", true⟩ tnetOk vnetFixed (snetOf []) ⟨some "  ", none, none, ""⟩ =
      ([], .badRequest (some "Missing profile") none) ∧
    postSteamSync ⟨"KEY", "", true⟩ tnetOk vnetFixed (snetOf []) ⟨some "x", none, none, ""⟩ =
      ([], .serverError "Missing TURNSTILE_SECRET_KEY in production") := ⟨rfl, rfl, rfl⟩

/-- Claim C2 (amended): the startup check inspects only the Steam
credential, never the verification secret; in production mode with the
secret absent the missing-secret check fires per-request inside the
verifier, which throws, so every POST whose profile survives validation is
refused with a 500 configuration error, with no outbound call and
regardless of the token — verification is never silently skipped. -/
theorem missing_secret_per_request :
    (∀ (k s1 s2 : String) (p : Bool), serverStarts ⟨k, s1, p⟩ = serverStarts ⟨k, s2, p⟩) ∧
    (∀ (cfg : Config) (tnet : TurnstileNet) (vnet : VanityNet) (snet : StatsNet)
      (req : SyncRequest),
      cfg.isProd = true → cfg.turnstileSecretKey = "" →
      jsTrim (req.profile.getD "") ≠ "" →
      postSteamSync cfg tnet vnet snet req =
        ([], .serverError "Missing TURNSTILE_SECRET_KEY in production")) := by
  refine ⟨fun k s1 s2 p => rfl, ?_⟩
  intro cfg tnet vnet snet req h1 h2 h3
  have hv : verifyTurnstileOrSkip cfg tnet (jsTrim (req.turnstileToken.getD "")) req.ip =
      ([], .error "Missing TURNSTILE_SECRET_KEY in production") := by
    simp [verifyTurnstileOrSkip, h1, h2]
  unfold postSteamSync
  rw [if_neg h3]
  dsimp only
  rw [hv]
  rfl

/-- Claim C2 (witness): the amended theorem applied at a concrete
production configuration without a secret, for an empty and a non-empty
token. -/
theorem missing_secret_per_request_witness :
    serverStarts ⟨"KEY", "SECRET", true⟩ = serverStarts ⟨"KEY", "", true⟩ ∧
    postSteamSync ⟨"KEY", "", true⟩ tnetOk vnetFixed (snetOf [])
      ⟨some "x", none, none, ""⟩ =
      ([], .serverError "Missing TURNSTILE_SECRET_KEY in production") ∧
    postSteamSync ⟨"KEY", "", true⟩ tnetOk vnetFixed (snetOf [])
      ⟨some "x", none, some "tok", "ip"⟩ =
      ([], .serverError "Missing TURNSTILE_SECRET_KEY in production") := by
  refine ⟨missing_secret_per_request.1 "KEY" "SECRET" "" true, ?_, ?_⟩
  · exact missing_secret_per_request.2 ⟨"KEY", "", true⟩ tnetOk vnetFixed (snetOf [])
      ⟨some "x", none, none, ""⟩ rfl rfl (by decide)
  · exact missing_secret_per_request.2 ⟨"KEY", "", true⟩ tnetOk vnetFixed (snetOf [])
      ⟨some "x", none, some "tok", "ip"⟩ rfl rfl (by decide)

/-- Whether the second list is an initial segment of the first argument
order: leadsWith needle hay is true when hay starts with needle. -/
def leadsWith : List Char → List Char → Bool
  | [], _ => true
  | _ :: _, [] => false
  | a :: na, b :: hb => a == b && leadsWith na hb

/-- Whether needle occurs contiguously inside hay. -/
def hasSub : List Char → List Char → Bool
  | [], needle => leadsWith needle []
  | c :: t, needle => leadsWith needle (c :: t) || hasSub t needle

/-- Substring test on strings, as String.prototype.includes. -/
def strHasSub (hay needle : String) : Bool := hasSub hay.toList needle.toList

theorem leadsWith_append (n ys : List Char) : leadsWith n (n ++ ys) = true := by
  induction n with
  | nil => rfl
  | cons a t ih => simp [leadsWith, ih]

theorem hasSub_nil_needle (ys : List Char) : hasSub ys [] = true := by
  cases ys <;> rfl

theorem hasSub_self_append (n ys : List Char) : hasSub (n ++ ys) n = true := by
  cases n with
  | nil => exact hasSub_nil_needle ys
  | cons a t =>
    simp only [List.cons_append, hasSub, Bool.or_eq_true]
    exact Or.inl (leadsWith_append (a :: t) ys)

theorem hasSub_of_middle (xs n ys : List Char) : hasSub (xs ++ (n ++ ys)) n = true := by
  induction xs with
  | nil => exact hasSub_self_append n ys
  | cons x xt ih => simp [hasSub, ih]

/-- Whether some two adjacent characters of the list both satisfy the
predicate. -/
def twoRun (pred : Char → Bool) : List Char → Bool
  | a :: b :: t => (pred a && pred b) || twoRun pred (b :: t)
  | _ => false

theorem hasSub_twoRun (pred : Char → Bool) :
    ∀ (hay needle : List Char), 2 ≤ needle.length →
    needle.all pred = true → hasSub hay needle = true → twoRun pred hay = true := by
  intro hay
  induction hay with
  | nil =>
    intro needle h2 hall hsub
    cases needle with
    | nil => simp at h2
    | cons a t => exact absurd hsub (by simp [hasSub, leadsWith])
  | cons c t ih =>
    intro needle h2 hall hsub
    cases needle with
    | nil => simp at h2
    | cons a nt =>
      cases nt with
      | nil => simp at h2
      | cons b nr =>
        simp only [hasSub, Bool.or_eq_true] at hsub
        cases hsub with
        | inl hl =>
          cases t with
          | nil => simp [leadsWith] at hl
          | cons d t2 =>
            simp only [leadsWith, Bool.and_eq_true] at hl
            have hpa : pred a = true ∧ pred b = true := by
              simp [List.all_cons] at hall
              exact ⟨hall.1, hall.2.1⟩
            have hc : pred c = true := by rw [← eq_of_beq hl.1]; exact hpa.1
            have hd : pred d = true := by rw [← eq_of_beq hl.2.1]; exact hpa.2
            show twoRun pred (c :: d :: t2) = true
            simp [twoRun, hc, hd]
        | inr hr =>
          have htr := ih (a :: b :: nr) h2 hall hr
          cases t with
          | nil => simp [twoRun] at htr
          | cons d t2 =>
            show twoRun pred (c :: d :: t2) = true
            simp [twoRun, htr]

/-- Claim C8 (counterexample): not every error raised by vanity resolution
includes the original vanity string: the HTTP-failure error mentions only
the status, so for vanity alice and an HTTP 500 answer the message does not
contain alice. -/
theorem vanity_error_no_vanity_cex :
    resolveVanity cfgDev vnetHttp500 "alice" = .error "ResolveVanityURL failed (HTTP 500)" ∧
    strHasSub "ResolveVanityURL failed (HTTP 500)" "alice" = false := ⟨rfl, rfl⟩

/-- Claim C8 (amended): the could-not-resolve error of vanity resolution
includes the original vanity string, while the HTTP-failure error mentions
only the status; every error message of vanity resolution and the
achievement fetch is computed from the delivered response, the status, the
vanity string and the upstream error field alone, never from the
credential — with equal network answers, two configurations with different
credentials produce identical results — and a malformed (unparseable)
stats body with a success status yields the fixed missing-playerstats
message, which contains no credential made of at least two uppercase
letters or digits. -/
theorem error_message_spec :
    (∀ (r : RawResp) (data : Option VanityBody) (v m : String),
      resolveVanityCore (.ok (r, data)) v = .error m →
      (r.ok = false ∧ m = "ResolveVanityURL failed (HTTP " ++ toString r.status ++ ")") ∨
      (r.ok = true ∧ m = "Could not resolve that Steam profile. (vanity=" ++ v ++ ")" ∧
        strHasSub m v = true)) ∧
    (∀ (cfg1 cfg2 : Config) (n1 n2 : VanityNet) (v : String),
      n1 (resolveVanityUrlStr cfg1.steamApiKey v) =
        n2 (resolveVanityUrlStr cfg2.steamApiKey v) →
      resolveVanity cfg1 n1 v = resolveVanity cfg2 n2 v) ∧
    (∀ (cfg1 cfg2 : Config) (n1 n2 : StatsNet) (sid : String),
      n1 (playerAchievementsUrlStr cfg1.steamApiKey sid) =
        n2 (playerAchievementsUrlStr cfg2.steamApiKey sid) →
      getPlayerAchievements cfg1 n1 sid = getPlayerAchievements cfg2 n2 sid) ∧
    (∀ (cfg : Config) (net : StatsNet) (sid : String) (st : Nat),
      net (playerAchievementsUrlStr cfg.steamApiKey sid) = .ok (⟨true, st⟩, none) →
      getPlayerAchievements cfg net sid =
        .error "Unexpected Steam response (missing playerstats).") ∧
    (∀ key : String, 2 ≤ key.length →
      key.toList.all (fun c => c.isUpper || c.isDigit) = true →
      strHasSub "Unexpected Steam response (missing playerstats)." key = false) := by
  refine ⟨?_, ?_, ?_, ?_, ?_⟩
  · intro r data v m h
    obtain ⟨rok, rst⟩ := r
    cases rok with
    | false =>
      have h2 : (Except.error ("ResolveVanityURL failed (HTTP " ++ toString rst ++ ")") :
          Except String String) = .error m := h
      left
      exact ⟨rfl, (Except.error.inj h2).symm⟩
    | true =>
      by_cases hc : (data.bind fun d => d.response).bind (fun i => i.success) = some 1 ∧
          (((data.bind fun d => d.response).bind (fun i => i.steamid)).getD "") ≠ ""
      · have h2 : resolveVanityCore (.ok (⟨true, rst⟩, data)) v =
            .ok ((((data.bind fun d => d.response).bind (fun i => i.steamid)).getD "")) := by
          show (if (data.bind fun d => d.response).bind (fun i => i.success) = some 1 ∧
              (((data.bind fun d => d.response).bind (fun i => i.steamid)).getD "") ≠ "" then
            (Except.ok ((((data.bind fun d => d.response).bind (fun i => i.steamid)).getD "")) :
              Except String String)
          else .error ("Could not resolve that Steam profile. (vanity=" ++ v ++ ")")) = _
          rw [if_pos hc]
        rw [h2] at h
        exact absurd h (fun h => Except.noConfusion h)
      · have h2 : resolveVanityCore (.ok (⟨true, rst⟩, data)) v =
            .error ("Could not resolve that Steam profile. (vanity=" ++ v ++ ")") := by
          show (if (data.bind fun d => d.response).bind (fun i => i.success) = some 1 ∧
              (((data.bind fun d => d.response).bind (fun i => i.steamid)).getD "") ≠ "" then
            (Except.ok ((((data.bind fun d => d.response).bind (fun i => i.steamid)).getD "")) :
              Except String String)
          else .error ("Could not resolve that Steam profile. (vanity=" ++ v ++ ")")) = _
          rw [if_neg hc]
        rw [h2] at h
        right
        have hm : m = "Could not resolve that Steam profile. (vanity=" ++ v ++ ")" :=
          (Except.error.inj h).symm
        refine ⟨rfl, hm, ?_⟩
        rw [hm]
        show hasSub ("Could not resolve that Steam profile. (vanity=" ++ v ++ ")").toList
          v.toList = true
        have : ("Could not resolve that Steam profile. (vanity=" ++ v ++ ")").toList =
            "Could not resolve that Steam profile. (vanity=".toList ++
              (v.toList ++ ")".toList) := by
          simp [String.toList, String.data_append]
        rw [this]
        exact hasSub_of_middle _ _ _
  · intro cfg1 cfg2 n1 n2 v h
    unfold resolveVanity
    rw [h]
  · intro cfg1 cfg2 n1 n2 sid h
    unfold getPlayerAchievements
    rw [h]
  · intro cfg net sid st h
    unfold getPlayerAchievements
    rw [h]
    rfl
  · intro key h2 hall
    cases hs : strHasSub "Unexpected Steam response (missing playerstats)." key with
    | false => rfl
    | true =>
      have htr := hasSub_twoRun (fun c => c.isUpper || c.isDigit)
        "Unexpected Steam response (missing playerstats).".toList key.toList h2 hall hs
      have hfalse : twoRun (fun c => c.isUpper || c.isDigit)
          "Unexpected Steam response (missing playerstats).".toList = false := by decide
      rw [hfalse] at htr
      exact absurd htr (by simp)

/-- Claim C8 (witness): the amended theorem applied at a concrete
malformed-body stats answer, and at a concrete 32-character uppercase
hexadecimal credential. -/
theorem error_message_spec_witness :
    getPlayerAchievements cfgDev snetBadBody "76561198000000001" =
      .error "Unexpected Steam response (missing playerstats)." ∧
    strHasSub "Unexpected Steam response (missing playerstats)."
      "ABCDEF0123456789ABCDEF0123456789" = false := by
  constructor
  · exact error_message_spec.2.2.2.1 cfgDev snetBadBody "76561198000000001" 200 rfl
  · exact error_message_spec.2.2.2.2 "ABCDEF0123456789ABCDEF0123456789" (by decide) (by decide)

end SteamProxy
